import Mathlib

/-!
Verification of the barcode scan-confirmation logic of the Nettech mobile
retail client, shallowly embedded from the TypeScript source.

Variant A (src/src/screens/CameraScreen.tsx) is the multi-read confirmation
accumulator; variant B (the second CameraScreen file) is the simple debounce
gate; the lookup service findProductByBarcode lives in the api service file.
Times are modelled as Int milliseconds (Date.now values), the confirmation
progress ratio as Rat, and the pending setTimeout as an explicit deadline in
the state.  The single-threaded JS event loop is modelled by an explicit step
function: the pending confirmation timer fires before a scan event whose
timestamp lies strictly after the timer deadline.
-/

namespace Nettech

/-- SCAN_COOLDOWN = 500 ms: minimum wait between two reads (variant A). -/
def SCAN_COOLDOWN : Int := 500

/-- CONFIRM_COUNT = 3: the same barcode must be read three times (variant A). -/
def CONFIRM_COUNT : Nat := 3

/-- CONFIRM_TIMEOUT = 2500 ms: window within which the reads must repeat. -/
def CONFIRM_TIMEOUT : Int := 2500

/-- SCAN_DEBOUNCE = 1500 ms: debounce window of variant B. -/
def SCAN_DEBOUNCE : Int := 1500

/-- The 30000 ms AbortController timeout around the product-lookup fetch. -/
def FETCH_TIMEOUT_MS : Int := 30000

/-- State of the variant A camera screen: the isProcessing and isConfirming
useState flags, the confirmProgress ratio, the lastScanTime and barcodeBuffer
refs, and the pending confirmTimeout timer modelled as the absolute time at
which it is due to fire (none when no timer is pending). -/
structure ScanState where
  isProcessing : Bool
  lastScanTime : Int
  barcodeBuffer : List String
  isConfirming : Bool
  confirmProgress : Rat
  confirmDeadline : Option Int
deriving DecidableEq, Repr

/-- The state at mount: useState(false), useRef(0), useRef([]), no timer. -/
def initialScanState : ScanState :=
  { isProcessing := false
    lastScanTime := 0
    barcodeBuffer := []
    isConfirming := false
    confirmProgress := 0
    confirmDeadline := none }

/-- clearBarcodeBuffer: empties the buffer, resets isConfirming and
confirmProgress, and cancels the pending confirmTimeout timer. -/
def clearBarcodeBuffer (s : ScanState) : ScanState :=
  { s with
    barcodeBuffer := []
    isConfirming := false
    confirmProgress := 0
    confirmDeadline := none }

/-- The synchronous prefix of processBarcodeRequest: setIsProcessing(true)
followed by clearBarcodeBuffer(), executed before the awaited lookup. -/
def startLookup (s : ScanState) : ScanState :=
  clearBarcodeBuffer { s with isProcessing := true }

/-- barcodeBuffer.slice(-CONFIRM_COUNT): the last CONFIRM_COUNT entries
(the whole buffer when it is shorter). -/
def recentWindow (buf : List String) : List String :=
  buf.drop (buf.length - CONFIRM_COUNT)

/-- allSame and hasEnoughScans combined: every entry of the last-N window
equals the just-scanned barcode and the window holds at least N entries. -/
def confirmReady (buf : List String) (barcode : String) : Bool :=
  (recentWindow buf).all (fun b => b == barcode) &&
    decide (CONFIRM_COUNT ≤ (recentWindow buf).length)

/-- handleBarcodeScanned of variant A.  Returns the new state together with
the barcode handed to processBarcodeRequest when the read confirmed (none
otherwise).  Skips when a lookup is in flight; skips (without touching
lastScanTime) when less than SCAN_COOLDOWN elapsed since the last accepted
read; otherwise pushes the value, checks the last-N window, and either
dispatches the lookup (whose synchronous prefix sets isProcessing and clears
the buffer) or records progress and re-arms the confirmation timer. -/
def handleBarcodeScanned (s : ScanState) (barcode : String) (now : Int) :
    ScanState × Option String :=
  if s.isProcessing then (s, none)
  else if now - s.lastScanTime < SCAN_COOLDOWN then (s, none)
  else
    let buf := s.barcodeBuffer ++ [barcode]
    if confirmReady buf barcode then
      (startLookup { s with lastScanTime := now, barcodeBuffer := buf }, some barcode)
    else
      ({ s with
          lastScanTime := now
          barcodeBuffer := buf
          isConfirming := true
          confirmProgress := ((recentWindow buf).length : Rat) / (CONFIRM_COUNT : Rat)
          confirmDeadline := some (now + CONFIRM_TIMEOUT) }, none)

/-- The confirmTimeout callback: setTimeout(() => clearBarcodeBuffer(), ...).
It only clears the buffer; it produces no user-visible effect. -/
def fireConfirmTimeout (s : ScanState) : ScanState :=
  clearBarcodeBuffer s

/-- One scan event under the single-threaded event loop: if a pending
confirmation timer is due strictly before the scan timestamp, its callback
(clearBarcodeBuffer) runs first, then the scan is handled. -/
def stepWithTimer (s : ScanState) (barcode : String) (now : Int) :
    ScanState × Option String :=
  match s.confirmDeadline with
  | some d =>
      if d < now then handleBarcodeScanned (fireConfirmTimeout s) barcode now
      else handleBarcodeScanned s barcode now
  | none => handleBarcodeScanned s barcode now

/-- Run a timestamped scan sequence through variant A, collecting the
dispatched lookup (if any) of every read. -/
def runA : ScanState → List (String × Int) → ScanState × List (Option String)
  | s, [] => (s, [])
  | s, (v, t) :: rest =>
    let p := stepWithTimer s v t
    let q := runA p.1 rest
    (q.1, p.2 :: q.2)

/-- The useFocusEffect body of variant A: setIsProcessing(false) and
clearBarcodeBuffer() on focus. -/
def onFocusA (s : ScanState) : ScanState :=
  clearBarcodeBuffer { s with isProcessing := false }

/-- The useFocusEffect cleanup of variant A: clearBarcodeBuffer() on blur. -/
def onBlurA (s : ScanState) : ScanState :=
  clearBarcodeBuffer s

/-- State of the variant B camera screen: only the isProcessing flag and the
lastScanTime ref. -/
structure DebounceState where
  isProcessing : Bool
  lastScanTime : Int
deriving DecidableEq, Repr

/-- handleBarcodeScanned of variant B: skip while a lookup is in flight,
reject when less than SCAN_DEBOUNCE ms elapsed since the last accepted scan
(without advancing lastScanTime), otherwise record the time and dispatch the
lookup at once (whose synchronous prefix sets isProcessing). -/
def handleBarcodeScannedB (s : DebounceState) (barcode : String) (now : Int) :
    DebounceState × Option String :=
  if s.isProcessing then (s, none)
  else if now - s.lastScanTime < SCAN_DEBOUNCE then (s, none)
  else ({ isProcessing := true, lastScanTime := now }, some barcode)

/-- The useFocusEffect body of variant B: setIsProcessing(false) and
lastScanTime.current = 0 on focus. -/
def onFocusB (s : DebounceState) : DebounceState :=
  { s with isProcessing := false, lastScanTime := 0 }

/-- The useFocusEffect cleanup of variant B: lastScanTime.current = 0. -/
def onBlurB (s : DebounceState) : DebounceState :=
  { s with lastScanTime := 0 }

/-! ### Frame filter (onCodeScanned) -/

/-- code.frame: the bounding box of one detected code. -/
structure CodeFrame where
  x : Rat
  y : Rat
  width : Rat
  height : Rat
deriving DecidableEq, Repr

/-- One detected code of a camera frame; value and frame may be absent. -/
structure ScannedCode where
  value : Option String
  frame : Option CodeFrame
deriving DecidableEq, Repr

/-- The on-screen scan-frame rectangle (SCAN_FRAME_LEFT .. SCAN_FRAME_BOTTOM). -/
structure ScanFrameRect where
  left : Rat
  right : Rat
  top : Rat
  bottom : Rat
deriving DecidableEq, Repr

/-- The concrete rectangle of the source, as a function of the screen size:
FRAME_SIZE = SCREEN_WIDTH * 0.7, centred horizontally and vertically. -/
def scanFrameRect (screenWidth screenHeight : Rat) : ScanFrameRect :=
  let frameSize := screenWidth * (7 / 10)
  { left := (screenWidth - frameSize) / 2
    right := (screenWidth - frameSize) / 2 + frameSize
    top := (screenHeight - frameSize) / 2
    bottom := (screenHeight - frameSize) / 2 + frameSize }

/-- JS truthiness of code.value: undefined and the empty string are falsy. -/
def valueTruthy : Option String → Bool
  | none => false
  | some s => !(s == "")

/-- The containment test on the bounding-box center
(x + width / 2, y + height / 2). -/
def centerInRect (r : ScanFrameRect) (f : CodeFrame) : Bool :=
  let centerX := f.x + f.width / 2
  let centerY := f.y + f.height / 2
  decide (r.left ≤ centerX) && decide (centerX ≤ r.right) &&
    decide (r.top ≤ centerY) && decide (centerY ≤ r.bottom)

/-- The per-candidate predicate of codes.find in variant A onCodeScanned:
reject when value is falsy, reject when frame is missing, otherwise test the
bounding-box center against the scan-frame rectangle. -/
def codeInFrame (r : ScanFrameRect) (c : ScannedCode) : Bool :=
  if !(valueTruthy c.value) then false
  else
    match c.frame with
    | none => false
    | some f => centerInRect r f

/-- The whole variant A frame filter: the value handed to
handleBarcodeScanned, if any — codes.find(...) followed by the
validCode?.value truthiness guard. -/
def frameFilter (r : ScanFrameRect) (codes : List ScannedCode) : Option String :=
  match codes.find? (fun c => codeInFrame r c) with
  | some c =>
      match c.value with
      | some v => if v == "" then none else some v
      | none => none
  | none => none

/-- The camera format of variant B (useCameraFormat 1920x1080 request). -/
structure CamFormat where
  videoWidth : Rat
  videoHeight : Rat
deriving DecidableEq, Repr

/-- The bounding-box center used by variant B onCodeScanned: on iOS with a
known format the sensor-space box is first mapped to screen space using the
sensor long and short edges; otherwise the raw center is used. -/
def centerB (isIOS : Bool) (format : Option CamFormat)
    (screenWidth screenHeight : Rat) (f : CodeFrame) : Rat × Rat :=
  match isIOS, format with
  | true, some fmt =>
      let camLong := max fmt.videoWidth fmt.videoHeight
      let camShort := min fmt.videoWidth fmt.videoHeight
      ((f.y + f.height / 2) / camShort * screenWidth,
       (f.x + f.width / 2) / camLong * screenHeight)
  | _, _ => (f.x + f.width / 2, f.y + f.height / 2)

/-- The per-candidate predicate of variant B onCodeScanned. -/
def codeInFrameB (isIOS : Bool) (format : Option CamFormat)
    (screenWidth screenHeight : Rat) (r : ScanFrameRect) (c : ScannedCode) : Bool :=
  if !(valueTruthy c.value) then false
  else
    match c.frame with
    | none => false
    | some f =>
        let center := centerB isIOS format screenWidth screenHeight f
        decide (r.left ≤ center.1) && decide (center.1 ≤ r.right) &&
          decide (r.top ≤ center.2) && decide (center.2 ≤ r.bottom)

/-! ### The product-lookup service (findProductByBarcode) -/

/-- A store stock entry as the formatted Product carries it. -/
structure StoreStock where
  store_id : Int
  name : String
  stock : String
deriving DecidableEq, Repr

/-- A product feature (name and value). -/
structure ProductFeature where
  name : String
  value : String
deriving DecidableEq, Repr

/-- The formatted Product record of the api service. -/
structure Product where
  id : Int
  category_id : Int
  name : String
  barcode : String
  coverUrlThumb : String
  totalStock : Int
  storeStocks : List StoreStock
  weight : String
  features : List ProductFeature
  compatible_models : List String
  sales_total : Int
  price1 : Rat
  price1_cur : String
  price2 : Rat
  price2_cur : String
  price5 : Rat
  price5_cur : String
  price6 : Rat
  price6_cur : String
  price8 : Rat
  price8_cur : String
deriving DecidableEq, Repr

/-- A raw store stock entry as it may arrive in the JSON body; fields the
code defaults with the JS or-operator are optional. -/
structure RawStoreStock where
  store_id : Option Int
  name : Option String
  store_name : Option String
  stock : Option Int
deriving DecidableEq, Repr

/-- A raw product object of the JSON body.  Fields the code passes through
unchecked keep their plain type; fields it defaults or branches on are
optional.  features stands for the list the code obtains either from a
features array or from Object.values of a features object. -/
structure RawProduct where
  id : Int
  category_id : Int
  name : String
  barcode : String
  coverUrlThumb : Option String
  totalStock : Option Int
  storeStocks : Option (List RawStoreStock)
  shelf : Option (List RawStoreStock)
  weight : Option String
  features : Option (List ProductFeature)
  compatible_models : Option (List String)
  compatible_model_values : Option (List String)
  sales_total : Option Int
  price1 : Rat
  price1_cur : String
  price2 : Rat
  price2_cur : String
  price5 : Rat
  price5_cur : String
  price6 : Rat
  price6_cur : String
  price8 : Rat
  price8_cur : String
deriving DecidableEq, Repr

/-- JS a || b for optional strings, where the empty string is falsy. -/
def jsOrString (a : Option String) (b : String) : String :=
  match a with
  | some s => if s == "" then b else s
  | none => b

/-- The store-stock mapper inside formatProduct: store_id || 0,
name || store_name || two quotes, String(stock || 0). -/
def formatStoreStock (s : RawStoreStock) : StoreStock :=
  { store_id := s.store_id.getD 0
    name := jsOrString s.name (jsOrString s.store_name "")
    stock := toString (s.stock.getD 0) }

/-- formatProduct: normalizes one raw product into a Product, following the
defaulting rules of the source (storeStocks with shelf fallback, features
list, coverUrlThumb host prefix, numeric and string defaults). -/
def formatProduct (p : RawProduct) : Product :=
  { id := p.id
    category_id := p.category_id
    name := p.name
    barcode := p.barcode
    coverUrlThumb :=
      match p.coverUrlThumb with
      | some s => if s == "" then "" else "https://nettechservis.com" ++ s
      | none => ""
    totalStock := p.totalStock.getD 0
    storeStocks :=
      match p.storeStocks with
      | some l => l.map formatStoreStock
      | none =>
          match p.shelf with
          | some l => l.map formatStoreStock
          | none => []
    weight := jsOrString p.weight "0"
    features := p.features.getD []
    compatible_models := p.compatible_models.getD (p.compatible_model_values.getD [])
    sales_total := p.sales_total.getD 0
    price1 := p.price1
    price1_cur := p.price1_cur
    price2 := p.price2
    price2_cur := p.price2_cur
    price5 := p.price5
    price5_cur := p.price5_cur
    price6 := p.price6
    price6_cur := p.price6_cur
    price8 := p.price8
    price8_cur := p.price8_cur }

/-- The ApiResponse envelope of the api service. -/
structure ApiResponse (α : Type) where
  success : Bool
  data : Option α := none
  variations : Option (List α) := none
  error : Option String := none
deriving DecidableEq, Repr

/-- The shape of a parsed JSON body as findProductByBarcode inspects it. -/
structure ApiBody where
  variations : Option (List RawProduct)
  success : Bool
  product : Option RawProduct
deriving DecidableEq, Repr

/-- The outcome of the fetch, abstracting the network: the AbortController
fires at FETCH_TIMEOUT_MS (timeout), the response status is not ok
(httpError), the body is not JSON (invalidJson), a parsed body (jsonBody),
or any other throw with the message the catch extracts from it (otherError). -/
inductive NetOutcome where
  | timeout
  | httpError (status : Nat)
  | invalidJson
  | jsonBody (body : ApiBody)
  | otherError (message : String)
deriving DecidableEq, Repr

/-- The error string of the AbortError branch (note: it names 10 seconds
although the timer is set to 30000 ms). -/
def timeoutErrorMessage : String := "İstek zaman aşımına uğradı (10 saniye)"

/-- The error string thrown when the body is not JSON. -/
def parseErrorMessage : String := "API yanıtı JSON formatında değil"

/-- The error string thrown when the body carries no product. -/
def noProductMessage : String := "API yanıtında product bilgisi bulunamadı"

/-- productsArray selection: a non-empty variations array wins; otherwise a
truthy success together with a product object yields a singleton; otherwise
the no-product error is thrown (none here, turned into the error envelope by
the catch). -/
def productsArray (body : ApiBody) : Option (List RawProduct) :=
  match body.variations with
  | some (p :: rest) => some (p :: rest)
  | _ =>
      match body.success, body.product with
      | true, some p => some [p]
      | _, _ => none

/-- findProductByBarcode as a function of the fetch outcome: every throw is
caught and converted into a success := false envelope, the AbortError into
the timeout-specific message; a body with products yields success := true,
data := the first formatted product, variations := all of them. -/
def findProductByBarcode (outcome : NetOutcome) : ApiResponse Product :=
  match outcome with
  | .timeout =>
      { success := false, error := some timeoutErrorMessage }
  | .httpError status =>
      { success := false, error := some ("HTTP error! status: " ++ toString status) }
  | .invalidJson =>
      { success := false, error := some parseErrorMessage }
  | .otherError message =>
      { success := false, error := some message }
  | .jsonBody body =>
      match productsArray body with
      | some arr =>
          let formatted := arr.map formatProduct
          { success := true, data := formatted.head?, variations := some formatted }
      | none =>
          { success := false, error := some noProductMessage }

/-! ### The lookup dispatcher (processBarcodeRequest) -/

/-- The user-visible outcome of one lookup on the camera screen. -/
inductive LookupEffect where
  | navigate (barcode : String)
  | alert (title message : String)
deriving DecidableEq, Repr

/-- Title of the alert shown when the lookup is not successful. -/
def notFoundTitle : String := "Ürün Bulunamadı"

/-- Body of the alert shown when the lookup is not successful. -/
def notFoundMessage (barcode : String) : String :=
  "\"" ++ barcode ++ "\" barkodlu ürün bulunamadı. Tekrar denemek için farklı bir barkod okutun."

/-- Title of the alert of the catch branch. -/
def errorTitle : String := "Hata"

/-- Body of the alert of the catch branch. -/
def genericErrorMessage : String :=
  "Ürün bilgisi alınırken bir hata oluştu. Lütfen tekrar deneyin."

/-- processBarcodeRequest of variant A: sets isProcessing, clears the buffer,
awaits the lookup, then either navigates to the product detail screen or
shows the not-found alert; a throw out of the awaited call lands in the
catch branch with the generic error alert.  The awaited call is modelled as
an Except: ok carries the ApiResponse, error a thrown message. -/
def processBarcodeRequest (s : ScanState) (barcode : String)
    (lookup : Except String (ApiResponse Product)) : ScanState × LookupEffect :=
  let started := startLookup s
  match lookup with
  | .ok response =>
      if response.success && response.data.isSome then
        (started, .navigate barcode)
      else
        (started, .alert notFoundTitle (notFoundMessage barcode))
  | .error _ => (started, .alert errorTitle genericErrorMessage)

/-- The Tamam button of either alert: setIsProcessing(false). -/
def dismissAlert (s : ScanState) : ScanState :=
  { s with isProcessing := false }

/-! ### Auxiliary predicates used by the temporal claims -/

/-- The timing discipline of the confirmation claims: starting from the given
last-accepted-read time, consecutive reads are at least SCAN_COOLDOWN and at
most CONFIRM_TIMEOUT apart. -/
def timedOk : Int → List (String × Int) → Bool
  | _, [] => true
  | last, (_, t) :: rest =>
      decide (SCAN_COOLDOWN ≤ t - last) && decide (t - last ≤ CONFIRM_TIMEOUT) &&
        timedOk t rest

/-- Whether a value list contains three consecutive equal entries, i.e.
whether at some read the last-CONFIRM_COUNT window could hold three
identical values. -/
def hasTriple : List String → Bool
  | a :: b :: c :: rest => (a == b && b == c) || hasTriple (b :: c :: rest)
  | _ => false

/-! ### Step lemmas for the variant A accumulator -/

theorem handleBarcodeScanned_processing (s : ScanState) (v : String) (now : Int)
    (h : s.isProcessing = true) : handleBarcodeScanned s v now = (s, none) := by
  simp [handleBarcodeScanned, h]

theorem handleBarcodeScanned_cooldown (s : ScanState) (v : String) (now : Int)
    (hp : s.isProcessing = false) (h : now - s.lastScanTime < SCAN_COOLDOWN) :
    handleBarcodeScanned s v now = (s, none) := by
  simp [handleBarcodeScanned, hp, h]

theorem confirmReady_of_short (buf : List String) (v : String)
    (h : buf.length < CONFIRM_COUNT) : confirmReady buf v = false := by
  have hlen : (recentWindow buf).length < CONFIRM_COUNT := by
    simp only [recentWindow, List.length_drop]
    omega
  simp [confirmReady, Nat.not_le.mpr hlen]

theorem stepWithTimer_no_fire (s : ScanState) (v : String) (now : Int)
    (hd : ∀ d, s.confirmDeadline = some d → now ≤ d) :
    stepWithTimer s v now = handleBarcodeScanned s v now := by
  unfold stepWithTimer
  cases h : s.confirmDeadline with
  | none => rfl
  | some d =>
      have : ¬ d < now := by
        have := hd d h
        omega
      simp [this]

theorem stepA_accum (s : ScanState) (v : String) (now : Int)
    (hp : s.isProcessing = false)
    (hd : ∀ d, s.confirmDeadline = some d → now ≤ d)
    (hc : SCAN_COOLDOWN ≤ now - s.lastScanTime)
    (hr : confirmReady (s.barcodeBuffer ++ [v]) v = false) :
    stepWithTimer s v now =
      ({ s with
          lastScanTime := now
          barcodeBuffer := s.barcodeBuffer ++ [v]
          isConfirming := true
          confirmProgress :=
            ((recentWindow (s.barcodeBuffer ++ [v])).length : Rat) / (CONFIRM_COUNT : Rat)
          confirmDeadline := some (now + CONFIRM_TIMEOUT) }, none) := by
  rw [stepWithTimer_no_fire s v now hd]
  have hnc : ¬ now - s.lastScanTime < SCAN_COOLDOWN := by omega
  simp [handleBarcodeScanned, hp, hnc, hr]

theorem stepA_confirm (s : ScanState) (v : String) (now : Int)
    (hp : s.isProcessing = false)
    (hd : ∀ d, s.confirmDeadline = some d → now ≤ d)
    (hc : SCAN_COOLDOWN ≤ now - s.lastScanTime)
    (hr : confirmReady (s.barcodeBuffer ++ [v]) v = true) :
    stepWithTimer s v now =
      ({ isProcessing := true
         lastScanTime := now
         barcodeBuffer := []
         isConfirming := false
         confirmProgress := 0
         confirmDeadline := none }, some v) := by
  rw [stepWithTimer_no_fire s v now hd]
  have hnc : ¬ now - s.lastScanTime < SCAN_COOLDOWN := by omega
  simp [handleBarcodeScanned, hp, hnc, hr, startLookup, clearBarcodeBuffer]

/-! ### C1 -/

/-- C1: three identical reads, each at least SCAN_COOLDOWN and at most
CONFIRM_TIMEOUT after the previous one, starting from an empty buffer with no
lookup in flight and no pending timer, dispatch the lookup exactly once — on
the third read — and the buffer is empty (and the timer cancelled)
immediately after the dispatch. -/
theorem c1_confirm_exactly_once_on_third_read
    (s : ScanState) (v : String) (t1 t2 t3 : Int)
    (hb : s.barcodeBuffer = []) (hp : s.isProcessing = false)
    (hd : s.confirmDeadline = none)
    (h1 : SCAN_COOLDOWN ≤ t1 - s.lastScanTime)
    (h2 : SCAN_COOLDOWN ≤ t2 - t1) (h2w : t2 - t1 ≤ CONFIRM_TIMEOUT)
    (h3 : SCAN_COOLDOWN ≤ t3 - t2) (h3w : t3 - t2 ≤ CONFIRM_TIMEOUT) :
    (runA s [(v, t1), (v, t2), (v, t3)]).2 = [none, none, some v] ∧
    (runA s [(v, t1), (v, t2), (v, t3)]).1.barcodeBuffer = [] ∧
    (runA s [(v, t1), (v, t2), (v, t3)]).1.isProcessing = true ∧
    (runA s [(v, t1), (v, t2), (v, t3)]).1.confirmDeadline = none := by
  have e1 := stepA_accum s v t1 hp (by simp [hd]) h1
    (by rw [hb]; exact confirmReady_of_short _ _ (by simp [CONFIRM_COUNT]))
  rw [hb] at e1
  set s1 : ScanState :=
    { s with
        lastScanTime := t1
        barcodeBuffer := [] ++ [v]
        isConfirming := true
        confirmProgress := ((recentWindow ([] ++ [v])).length : Rat) / (CONFIRM_COUNT : Rat)
        confirmDeadline := some (t1 + CONFIRM_TIMEOUT) } with hs1
  have e2 := stepA_accum s1 v t2 (by simp [hs1, hp])
    (by
      intro d hdq
      simp only [hs1, Option.some.injEq] at hdq
      omega)
    (by simp [hs1]; omega)
    (by simp only [hs1]; exact confirmReady_of_short _ _ (by simp [CONFIRM_COUNT]))
  set s2 : ScanState :=
    { s1 with
        lastScanTime := t2
        barcodeBuffer := s1.barcodeBuffer ++ [v]
        isConfirming := true
        confirmProgress :=
          ((recentWindow (s1.barcodeBuffer ++ [v])).length : Rat) / (CONFIRM_COUNT : Rat)
        confirmDeadline := some (t2 + CONFIRM_TIMEOUT) } with hs2
  have e3 := stepA_confirm s2 v t3 (by simp [hs2, hs1, hp])
    (by
      intro d hdq
      simp only [hs2, Option.some.injEq] at hdq
      omega)
    (by simp [hs2]; omega)
    (by
      have hbuf : s2.barcodeBuffer = [v, v] := by simp [hs2, hs1]
      rw [hbuf]
      simp [confirmReady, recentWindow, CONFIRM_COUNT])
  simp [runA, e1, e2, e3]

/-- C1 witness: the [A, A, A] example at 600 ms spacing from the mount
state. -/
theorem c1_confirm_exactly_once_on_third_read_witness :
    (runA initialScanState [("A", 600), ("A", 1200), ("A", 1800)]).2 =
      [none, none, some "A"] ∧
    (runA initialScanState [("A", 600), ("A", 1200), ("A", 1800)]).1.barcodeBuffer = [] ∧
    (runA initialScanState [("A", 600), ("A", 1200), ("A", 1800)]).1.isProcessing = true ∧
    (runA initialScanState [("A", 600), ("A", 1200), ("A", 1800)]).1.confirmDeadline = none :=
  c1_confirm_exactly_once_on_third_read initialScanState "A" 600 1200 1800
    rfl rfl rfl (by decide) (by decide) (by decide) (by decide) (by decide)

/-! ### C2 -/

/-- C2: the sliding-window semantics on the sequence [a, b, a, a, a] at
600 ms spacing with two distinct values: reads one to four dispatch nothing
(read four sees the window [b, a, a]), and the fifth read dispatches the
lookup with a; the buffer is cleared by the dispatch. -/
theorem c2_sliding_window_confirms_on_fifth_read (a b : String) (hab : a ≠ b) :
    (runA initialScanState [(a, 600), (b, 1200), (a, 1800), (a, 2400), (a, 3000)]).2 =
      [none, none, none, none, some a] ∧
    (runA initialScanState [(a, 600), (b, 1200), (a, 1800), (a, 2400), (a, 3000)]).1.barcodeBuffer =
      [] := by
  have hba : (b == a) = false := beq_eq_false_iff_ne.mpr (Ne.symm hab)
  have hab2 : (a == b) = false := beq_eq_false_iff_ne.mpr hab
  simp [runA, stepWithTimer, handleBarcodeScanned, confirmReady, recentWindow,
    clearBarcodeBuffer, startLookup, fireConfirmTimeout, initialScanState,
    SCAN_COOLDOWN, CONFIRM_COUNT, CONFIRM_TIMEOUT, hba, hab2]

/-- C2 witness: the concrete [A, B, A, A, A] instance. -/
theorem c2_sliding_window_confirms_on_fifth_read_witness :
    (runA initialScanState [("A", 600), ("B", 1200), ("A", 1800), ("A", 2400), ("A", 3000)]).2 =
      [none, none, none, none, some "A"] ∧
    (runA initialScanState
        [("A", 600), ("B", 1200), ("A", 1800), ("A", 2400), ("A", 3000)]).1.barcodeBuffer = [] :=
  c2_sliding_window_confirms_on_fifth_read "A" "B" (by decide)

/-! ### C5 -/

/-- The final state of the run [A, B, A] at 600 ms spacing: the window
[A, B, A] has length three, so the code shows full progress although only
two entries match the current value. -/
theorem c5_run_ABA :
    runA initialScanState [("A", 600), ("B", 1200), ("A", 1800)] =
      ({ isProcessing := false, lastScanTime := 1800, barcodeBuffer := ["A", "B", "A"],
         isConfirming := true, confirmProgress := 1, confirmDeadline := some 4300 },
       [none, none, none]) := by
  have h1 : (("B" : String) == "A") = false := by decide
  have h2 : (("A" : String) == "B") = false := by decide
  have h3 : ¬ ("B" : String) = "A" := by decide
  norm_num [runA, stepWithTimer, handleBarcodeScanned, confirmReady, recentWindow,
    clearBarcodeBuffer, startLookup, fireConfirmTimeout, initialScanState,
    SCAN_COOLDOWN, CONFIRM_COUNT, CONFIRM_TIMEOUT, h1, h2, h3]

/-- C5 counterexample: after the unconfirmed third read of [A, B, A] the
shown ratio is 1 (window length three over three), while the
entries-matching-the-current-value ratio of the claim is two thirds — the
code divides the window length, not the matching count, by N. -/
theorem c5_counterexample_progress_not_matching_ratio :
    (runA initialScanState [("A", 600), ("B", 1200), ("A", 1800)]).1.confirmProgress ≠
      (((recentWindow
            (runA initialScanState
              [("A", 600), ("B", 1200), ("A", 1800)]).1.barcodeBuffer).filter
          (fun b => b == "A")).length : Rat) / (CONFIRM_COUNT : Rat) := by
  have h1 : (("B" : String) == "A") = false := by decide
  rw [c5_run_ABA]
  norm_num [recentWindow, CONFIRM_COUNT, List.filter, h1]

/-- C5 amended: after every unconfirmed accepted read, the shown
confirmation-progress ratio equals the length of the last-N window divided
by N, that is min(buffer length after the push, N) / N — not the number of
matching entries over N. -/
theorem c5_progress_is_window_length_ratio (s : ScanState) (v : String) (now : Int)
    (hp : s.isProcessing = false)
    (hc : SCAN_COOLDOWN ≤ now - s.lastScanTime)
    (hr : confirmReady (s.barcodeBuffer ++ [v]) v = false) :
    (handleBarcodeScanned s v now).1.confirmProgress =
      ((recentWindow (s.barcodeBuffer ++ [v])).length : Rat) / (CONFIRM_COUNT : Rat) ∧
    (recentWindow (s.barcodeBuffer ++ [v])).length =
      min (s.barcodeBuffer.length + 1) CONFIRM_COUNT := by
  constructor
  · have hnc : ¬ now - s.lastScanTime < SCAN_COOLDOWN := by omega
    simp [handleBarcodeScanned, hp, hnc, hr]
  · simp only [recentWindow, List.length_drop, List.length_append, List.length_cons,
      List.length_nil]
    omega

/-- C5 amended witness: the first read of A from the mount state shows
one third. -/
theorem c5_progress_is_window_length_ratio_witness :
    (handleBarcodeScanned initialScanState "A" 600).1.confirmProgress =
      ((recentWindow (initialScanState.barcodeBuffer ++ ["A"])).length : Rat) /
        (CONFIRM_COUNT : Rat) ∧
    (recentWindow (initialScanState.barcodeBuffer ++ ["A"])).length =
      min (initialScanState.barcodeBuffer.length + 1) CONFIRM_COUNT :=
  c5_progress_is_window_length_ratio initialScanState "A" 600 rfl (by decide) (by decide)

/-! ### C7: sequences without three identical consecutive reads -/

theorem hasTriple_cons_of (a : String) (l : List String) (h : hasTriple l = true) :
    hasTriple (a :: l) = true := by
  match l with
  | [] => simp [hasTriple] at h
  | [x] => simp [hasTriple] at h
  | [x, y] => simp [hasTriple] at h
  | x :: y :: z :: rest =>
      simp [hasTriple] at h ⊢
      tauto

theorem hasTriple_append_right (l₁ l₂ : List String) (h : hasTriple l₂ = true) :
    hasTriple (l₁ ++ l₂) = true := by
  induction l₁ with
  | nil => simpa using h
  | cons a t ih => exact hasTriple_cons_of a (t ++ l₂) ih

theorem hasTriple_append_left (l₁ l₂ : List String) (h : hasTriple l₁ = true) :
    hasTriple (l₁ ++ l₂) = true := by
  induction l₁ with
  | nil => simp [hasTriple] at h
  | cons a t ih =>
      match t with
      | [] => simp [hasTriple] at h
      | [x] => simp [hasTriple] at h
      | x :: y :: rest =>
          simp only [hasTriple, Bool.or_eq_true] at h
          rcases h with h | h
          · simp [List.cons_append, hasTriple, h]
          · have := ih (by simpa [hasTriple] using h)
            simp only [List.cons_append] at this ⊢
            simp [hasTriple, this]

/-- A read that satisfies the confirmation test contributes three identical
consecutive entries to the buffer. -/
theorem confirmReady_hasTriple (buf : List String) (v : String)
    (h : confirmReady buf v = true) : hasTriple buf = true := by
  simp only [confirmReady, Bool.and_eq_true, decide_eq_true_eq, List.all_eq_true] at h
  obtain ⟨hall, hlen⟩ := h
  have hlen3 : (recentWindow buf).length = 3 := by
    simp only [recentWindow, List.length_drop] at hlen ⊢
    simp only [CONFIRM_COUNT] at hlen ⊢
    omega
  obtain ⟨x, y, z, hxyz⟩ := List.length_eq_three.mp hlen3
  have hx : x = v := by
    have := hall x (by rw [hxyz]; simp)
    simpa using this
  have hy : y = v := by
    have := hall y (by rw [hxyz]; simp)
    simpa using this
  have hz : z = v := by
    have := hall z (by rw [hxyz]; simp)
    simpa using this
  have hsplit : buf = buf.take (buf.length - CONFIRM_COUNT) ++ recentWindow buf :=
    (List.take_append_drop _ buf).symm
  rw [hsplit, hxyz, hx, hy, hz]
  exact hasTriple_append_right _ _ (by simp [hasTriple])

/-- If the accumulated values never contain three identical consecutive
reads, a run of accepted in-window reads dispatches nothing, keeps the
processing flag down, appends every value to the buffer, and leaves the
confirmation timer armed CONFIRM_TIMEOUT after the last read. -/
theorem runA_no_triple (scans : List (String × Int)) :
    ∀ s : ScanState, s.isProcessing = false →
    (s.confirmDeadline = none ∨ s.confirmDeadline = some (s.lastScanTime + CONFIRM_TIMEOUT)) →
    timedOk s.lastScanTime scans = true →
    hasTriple (s.barcodeBuffer ++ scans.map Prod.fst) = false →
    (∀ o ∈ (runA s scans).2, o = none) ∧
    (runA s scans).1.isProcessing = false ∧
    (runA s scans).1.barcodeBuffer = s.barcodeBuffer ++ scans.map Prod.fst ∧
    (scans = [] → (runA s scans).1 = s) ∧
    (scans ≠ [] → (runA s scans).1.confirmDeadline =
      some ((runA s scans).1.lastScanTime + CONFIRM_TIMEOUT)) := by
  induction scans with
  | nil =>
      intro s hp hdl ht htriple
      refine ⟨by simp [runA], by simp [runA, hp], by simp [runA], fun _ => by simp [runA],
        fun hne => absurd rfl hne⟩
  | cons vt rest ih =>
      intro s hp hdl ht htriple
      obtain ⟨v, t⟩ := vt
      simp only [timedOk, Bool.and_eq_true, decide_eq_true_eq] at ht
      obtain ⟨⟨hcool, hwin⟩, htrest⟩ := ht
      have hd : ∀ d, s.confirmDeadline = some d → t ≤ d := by
        intro d hdq
        rcases hdl with h | h
        · rw [h] at hdq; cases hdq
        · rw [h] at hdq
          injection hdq with hdq
          omega
      have hmap : s.barcodeBuffer ++ ((v, t) :: rest).map Prod.fst =
          (s.barcodeBuffer ++ [v]) ++ rest.map Prod.fst := by
        simp
      have hready : confirmReady (s.barcodeBuffer ++ [v]) v = false := by
        by_contra hcon
        have hcon' : confirmReady (s.barcodeBuffer ++ [v]) v = true := by
          revert hcon
          cases confirmReady (s.barcodeBuffer ++ [v]) v <;> simp
        have h1 : hasTriple (s.barcodeBuffer ++ [v]) = true :=
          confirmReady_hasTriple _ _ hcon'
        have h2 : hasTriple ((s.barcodeBuffer ++ [v]) ++ rest.map Prod.fst) = true :=
          hasTriple_append_left _ _ h1
        rw [hmap, h2] at htriple
        cases htriple
      have estep := stepA_accum s v t hp hd hcool hready
      set s1 : ScanState :=
        { s with
            lastScanTime := t
            barcodeBuffer := s.barcodeBuffer ++ [v]
            isConfirming := true
            confirmProgress :=
              ((recentWindow (s.barcodeBuffer ++ [v])).length : Rat) / (CONFIRM_COUNT : Rat)
            confirmDeadline := some (t + CONFIRM_TIMEOUT) } with hs1
      have hrec := ih s1 (by simp [hs1, hp]) (by right; simp [hs1])
        (by simpa [hs1] using htrest)
        (by rw [show s1.barcodeBuffer ++ rest.map Prod.fst =
              s.barcodeBuffer ++ ((v, t) :: rest).map Prod.fst by simp [hs1, hmap]]
            exact htriple)
      obtain ⟨ho, hip, hbuf, _, hdl2⟩ := hrec
      have hrun : runA s ((v, t) :: rest) = ((runA s1 rest).1, none :: (runA s1 rest).2) := by
        simp [runA, estep]
      refine ⟨?_, ?_, ?_, ?_, ?_⟩
      · intro o hmem
        rw [hrun] at hmem
        rcases List.mem_cons.mp hmem with h | h
        · exact h
        · exact ho o h
      · rw [hrun]; exact hip
      · rw [hrun]
        simp only [hbuf]
        simp [hs1, hmap]
      · intro h; cases h
      · intro _
        rw [hrun]
        rcases List.eq_nil_or_concat rest with hre | ⟨l, a, hre⟩
        · subst hre
          simp [runA, hs1]
        · have hne : rest ≠ [] := by subst hre; simp
          exact hdl2 hne

/-- C7: for every accepted in-window scan sequence whose values never hold
three identical consecutive reads (so the last-N window never fills with one
value), the accumulator dispatches no lookup; the confirmation timer is left
pending CONFIRM_TIMEOUT after the last read, and when it fires with no
further reads its callback (clearBarcodeBuffer, which shows no alert or any
other user-visible effect) empties the buffer and returns the accumulator to
the idle state with the processing flag still down. -/
theorem c7_no_confirm_then_silent_reset (s : ScanState) (scans : List (String × Int))
    (hb : s.barcodeBuffer = []) (hp : s.isProcessing = false)
    (hdl : s.confirmDeadline = none)
    (ht : timedOk s.lastScanTime scans = true)
    (htriple : hasTriple (scans.map Prod.fst) = false) :
    (∀ o ∈ (runA s scans).2, o = none) ∧
    (scans ≠ [] → (runA s scans).1.confirmDeadline =
      some ((runA s scans).1.lastScanTime + CONFIRM_TIMEOUT)) ∧
    (fireConfirmTimeout (runA s scans).1).barcodeBuffer = [] ∧
    (fireConfirmTimeout (runA s scans).1).isConfirming = false ∧
    (fireConfirmTimeout (runA s scans).1).confirmProgress = 0 ∧
    (fireConfirmTimeout (runA s scans).1).confirmDeadline = none ∧
    (fireConfirmTimeout (runA s scans).1).isProcessing = false := by
  have hmain := runA_no_triple scans s hp (Or.inl hdl) ht (by rw [hb]; simpa using htriple)
  obtain ⟨ho, hip, _, _, hdeadline⟩ := hmain
  exact ⟨ho, hdeadline, by simp [fireConfirmTimeout, clearBarcodeBuffer],
    by simp [fireConfirmTimeout, clearBarcodeBuffer],
    by simp [fireConfirmTimeout, clearBarcodeBuffer],
    by simp [fireConfirmTimeout, clearBarcodeBuffer],
    by simp [fireConfirmTimeout, clearBarcodeBuffer, hip]⟩

/-- C7 witness: the alternating sequence [A, B, A, B] at 600 ms spacing. -/
theorem c7_no_confirm_then_silent_reset_witness :
    (∀ o ∈ (runA initialScanState
        [("A", 600), ("B", 1200), ("A", 1800), ("B", 2400)]).2, o = none) ∧
    (([("A", 600), ("B", 1200), ("A", 1800), ("B", 2400)] : List (String × Int)) ≠ [] →
      (runA initialScanState [("A", 600), ("B", 1200), ("A", 1800), ("B", 2400)]).1.confirmDeadline =
        some ((runA initialScanState
          [("A", 600), ("B", 1200), ("A", 1800), ("B", 2400)]).1.lastScanTime + CONFIRM_TIMEOUT)) ∧
    (fireConfirmTimeout (runA initialScanState
        [("A", 600), ("B", 1200), ("A", 1800), ("B", 2400)]).1).barcodeBuffer = [] ∧
    (fireConfirmTimeout (runA initialScanState
        [("A", 600), ("B", 1200), ("A", 1800), ("B", 2400)]).1).isConfirming = false ∧
    (fireConfirmTimeout (runA initialScanState
        [("A", 600), ("B", 1200), ("A", 1800), ("B", 2400)]).1).confirmProgress = 0 ∧
    (fireConfirmTimeout (runA initialScanState
        [("A", 600), ("B", 1200), ("A", 1800), ("B", 2400)]).1).confirmDeadline = none ∧
    (fireConfirmTimeout (runA initialScanState
        [("A", 600), ("B", 1200), ("A", 1800), ("B", 2400)]).1).isProcessing = false :=
  c7_no_confirm_then_silent_reset initialScanState
    [("A", 600), ("B", 1200), ("A", 1800), ("B", 2400)]
    rfl rfl rfl (by decide) (by decide)

/-! ### C3: the frame filter -/

theorem find?_first_split {α : Type} (p : α → Bool) :
    ∀ (l : List α) (c : α), l.find? p = some c →
      ∃ l₁ l₂, l = l₁ ++ c :: l₂ ∧ p c = true ∧ ∀ x ∈ l₁, p x = false := by
  intro l
  induction l with
  | nil => intro c h; simp [List.find?] at h
  | cons a t ih =>
      intro c h
      cases hpa : p a with
      | true =>
          rw [List.find?_cons_of_pos t hpa] at h
          injection h with h
          subst h
          exact ⟨[], t, rfl, hpa, by simp⟩
      | false =>
          rw [List.find?_cons_of_neg t (by simp [hpa])] at h
          obtain ⟨l₁, l₂, rfl, hc, hall⟩ := ih c h
          refine ⟨a :: l₁, l₂, rfl, hc, ?_⟩
          intro x hx
          rcases List.mem_cons.mp hx with rfl | hx
          · exact hpa
          · exact hall x hx

theorem find?_of_first_match {α : Type} (p : α → Bool) (l₁ : List α) (c : α) (l₂ : List α)
    (hall : ∀ x ∈ l₁, p x = false) (hc : p c = true) :
    (l₁ ++ c :: l₂).find? p = some c := by
  induction l₁ with
  | nil => simpa using List.find?_cons_of_pos l₂ hc
  | cons a t ih =>
      have ha : p a = false := hall a (by simp)
      rw [List.cons_append, List.find?_cons_of_neg _ (by simp [ha])]
      exact ih fun x hx => hall x (List.mem_cons_of_mem a hx)

/-- C3: for every scan-frame rectangle and every code list of one camera
frame, the variant A filter yields at most one value (it is an Option): a
candidate with an absent value (the code also treats a present-but-empty
value as absent, JS falsiness) or an absent bounding box is rejected; a
candidate whose bounding-box center (x + width / 2, y + height / 2) lies
outside the rectangle is rejected; acceptance is exactly a present non-empty
value together with a present box whose center lies inside; and the filter
hands on precisely the value of the first accepted candidate in list order.
The variant B predicate coincides with it outside the iOS sensor-transform
branch. -/
theorem c3_frame_filter_first_center_inside (r : ScanFrameRect) (codes : List ScannedCode) :
    (∀ c ∈ codes, c.value = none ∨ c.frame = none → codeInFrame r c = false) ∧
    (∀ c ∈ codes, ∀ f, c.frame = some f → centerInRect r f = false →
      codeInFrame r c = false) ∧
    (∀ c : ScannedCode, codeInFrame r c = true ↔
      ∃ v f, c.value = some v ∧ v ≠ "" ∧ c.frame = some f ∧ centerInRect r f = true) ∧
    (∀ (l₁ : List ScannedCode) (c : ScannedCode) (l₂ : List ScannedCode) (v : String),
      codes = l₁ ++ c :: l₂ → (∀ x ∈ l₁, codeInFrame r x = false) →
      codeInFrame r c = true → c.value = some v → frameFilter r codes = some v) ∧
    (∀ v : String, frameFilter r codes = some v →
      ∃ l₁ c l₂, codes = l₁ ++ c :: l₂ ∧ codeInFrame r c = true ∧ c.value = some v ∧
        v ≠ "" ∧ ∀ x ∈ l₁, codeInFrame r x = false) ∧
    (∀ (format : Option CamFormat) (sw sh : Rat) (c : ScannedCode),
      codeInFrameB false format sw sh r c = codeInFrame r c) := by
  have hchar : ∀ c : ScannedCode, codeInFrame r c = true ↔
      ∃ v f, c.value = some v ∧ v ≠ "" ∧ c.frame = some f ∧ centerInRect r f = true := by
    intro c
    obtain ⟨cv, cf⟩ := c
    cases cv with
    | none => simp [codeInFrame, valueTruthy]
    | some v =>
        cases cf with
        | none => simp [codeInFrame, valueTruthy]
        | some f =>
            by_cases hv : v = ""
            · subst hv; simp [codeInFrame, valueTruthy]
            · simp [codeInFrame, valueTruthy, hv]
  refine ⟨?_, ?_, hchar, ?_, ?_, ?_⟩
  · intro c _ h
    obtain ⟨cv, cf⟩ := c
    rcases h with h | h
    · simp only at h
      subst h
      simp [codeInFrame, valueTruthy]
    · simp only at h
      subst h
      cases cv <;> simp [codeInFrame, valueTruthy]
  · intro c _ f hf hout
    obtain ⟨cv, cf⟩ := c
    simp only at hf
    subst hf
    cases cv with
    | none => simp [codeInFrame, valueTruthy]
    | some v => simp [codeInFrame, valueTruthy, hout]
  · intro l₁ c l₂ v hsplit hall hc hv
    have hfind : codes.find? (fun c => codeInFrame r c) = some c := by
      rw [hsplit]
      exact find?_of_first_match _ l₁ c l₂ hall hc
    have hvne : v ≠ "" := by
      obtain ⟨v', f, hv', hne, _, _⟩ := (hchar c).mp hc
      rw [hv] at hv'
      injection hv' with hv'
      rwa [hv']
    simp [frameFilter, hfind, hv, hvne]
  · intro v hv
    unfold frameFilter at hv
    cases hfind : codes.find? (fun c => codeInFrame r c) with
    | none => simp [hfind] at hv
    | some c =>
        have hc : codeInFrame r c = true := List.find?_some hfind
        obtain ⟨v', f, hv', hne, _, _⟩ := (hchar c).mp hc
        simp only [hfind, hv'] at hv
        rw [if_neg (by simpa using hne)] at hv
        injection hv with hv
        subst hv
        obtain ⟨l₁, l₂, hsp, _, hall⟩ := find?_first_split _ codes c hfind
        exact ⟨l₁, c, l₂, hsp, hc, hv', hne, hall⟩
  · intro format sw sh c
    obtain ⟨cv, cf⟩ := c
    cases cv with
    | none => simp [codeInFrame, codeInFrameB, valueTruthy]
    | some v =>
        cases cf with
        | none => simp [codeInFrame, codeInFrameB, valueTruthy]
        | some f => simp [codeInFrame, codeInFrameB, valueTruthy, centerB, centerInRect]

/-- C3 witness: on the 400 x 800 screen rectangle, a first candidate whose
center (5, 5) lies outside is skipped and the second, centred at (200, 400)
inside the rectangle, is handed on; a candidate without a value is
rejected. -/
theorem c3_frame_filter_first_center_inside_witness :
    frameFilter { left := 60, right := 340, top := 260, bottom := 540 }
      [{ value := some "X", frame := some { x := 0, y := 0, width := 10, height := 10 } },
       { value := some "Y", frame := some { x := 150, y := 350, width := 100, height := 100 } }] =
      some "Y" ∧
    codeInFrame { left := 60, right := 340, top := 260, bottom := 540 }
      { value := none, frame := some { x := 150, y := 350, width := 100, height := 100 } } =
      false := by
  constructor
  · refine (c3_frame_filter_first_center_inside
      { left := 60, right := 340, top := 260, bottom := 540 }
      [{ value := some "X", frame := some { x := 0, y := 0, width := 10, height := 10 } },
       { value := some "Y", frame := some { x := 150, y := 350, width := 100, height := 100 } }]).2.2.2.1
      [{ value := some "X", frame := some { x := 0, y := 0, width := 10, height := 10 } }]
      { value := some "Y", frame := some { x := 150, y := 350, width := 100, height := 100 } }
      [] "Y" rfl ?_ ?_ rfl
    · intro x hx
      simp only [List.mem_singleton] at hx
      subst hx
      norm_num [codeInFrame, valueTruthy, centerInRect]
    · have h : ¬ ("Y" : String) = "" := by decide
      norm_num [codeInFrame, valueTruthy, centerInRect, h]
  · exact (c3_frame_filter_first_center_inside
      { left := 60, right := 340, top := 260, bottom := 540 }
      [{ value := none, frame := some { x := 150, y := 350, width := 100, height := 100 } }]).1
      _ (by simp) (Or.inl rfl)

/-! ### C4: the variant B debounce gate -/

theorem handleBarcodeScannedB_accept_inv (s : DebounceState) (v : String) (t : Int)
    (s' : DebounceState) (w : String)
    (h : handleBarcodeScannedB s v t = (s', some w)) :
    s.isProcessing = false ∧ SCAN_DEBOUNCE ≤ t - s.lastScanTime ∧
    s' = { isProcessing := true, lastScanTime := t } ∧ w = v := by
  by_cases hp : s.isProcessing
  · simp [handleBarcodeScannedB, hp] at h
  · by_cases hc : t - s.lastScanTime < SCAN_DEBOUNCE
    · simp [handleBarcodeScannedB, hp, hc] at h
    · simp only [handleBarcodeScannedB, hp, if_false, Bool.false_eq_true, if_neg hc,
        Prod.mk.injEq, Option.some.injEq] at h
      exact ⟨by simpa using hp, by omega, h.1.symm, h.2.symm⟩

/-- C4: the debounce gate accepts at most one scan per SCAN_DEBOUNCE window:
a read less than SCAN_DEBOUNCE after the last accepted scan is rejected with
the state (in particular the timestamp) unchanged; a read at least
SCAN_DEBOUNCE after the last accepted scan, with no lookup in flight, is
accepted on that single read and dispatches the lookup at once; and any two
consecutively accepted reads (the processing flag having been reset in
between) are at least SCAN_DEBOUNCE apart. -/
theorem c4_debounce_one_accept_per_window
    (s sa : DebounceState) (v va vb : String) (now ta tb : Int) :
    (now - s.lastScanTime < SCAN_DEBOUNCE → handleBarcodeScannedB s v now = (s, none)) ∧
    (s.isProcessing = false → SCAN_DEBOUNCE ≤ now - s.lastScanTime →
      handleBarcodeScannedB s v now =
        ({ isProcessing := true, lastScanTime := now }, some v)) ∧
    (∀ s1 w1 s2 w2, handleBarcodeScannedB sa va ta = (s1, some w1) →
      handleBarcodeScannedB { s1 with isProcessing := false } vb tb = (s2, some w2) →
      SCAN_DEBOUNCE ≤ tb - ta) := by
  refine ⟨?_, ?_, ?_⟩
  · intro hc
    by_cases hp : s.isProcessing
    · simp [handleBarcodeScannedB, hp]
    · simp [handleBarcodeScannedB, hp, hc]
  · intro hp hc
    have hnc : ¬ now - s.lastScanTime < SCAN_DEBOUNCE := by omega
    simp [handleBarcodeScannedB, hp, hnc]
  · intro s1 w1 s2 w2 h1 h2
    obtain ⟨_, _, hs1, _⟩ := handleBarcodeScannedB_accept_inv sa va ta s1 w1 h1
    obtain ⟨_, hgap, _, _⟩ :=
      handleBarcodeScannedB_accept_inv { s1 with isProcessing := false } vb tb s2 w2 h2
    rw [hs1] at hgap
    simpa using hgap

/-- C4 witness: from an idle gate last accepted at 0, a read at 100 is
rejected, a read at 1600 is accepted and dispatched, and the two accepted
reads at 1600 and 3200 are SCAN_DEBOUNCE apart. -/
theorem c4_debounce_one_accept_per_window_witness :
    handleBarcodeScannedB { isProcessing := false, lastScanTime := 0 } "A" 100 =
      ({ isProcessing := false, lastScanTime := 0 }, none) ∧
    handleBarcodeScannedB { isProcessing := false, lastScanTime := 0 } "A" 1600 =
      ({ isProcessing := true, lastScanTime := 1600 }, some "A") ∧
    SCAN_DEBOUNCE ≤ (3200 : Int) - 1600 :=
  ⟨(c4_debounce_one_accept_per_window { isProcessing := false, lastScanTime := 0 }
      { isProcessing := false, lastScanTime := 0 } "A" "A" "A" 100 0 0).1 (by decide),
   (c4_debounce_one_accept_per_window { isProcessing := false, lastScanTime := 0 }
      { isProcessing := false, lastScanTime := 0 } "A" "A" "A" 1600 0 0).2.1 rfl (by decide),
   (c4_debounce_one_accept_per_window { isProcessing := false, lastScanTime := 0 }
      { isProcessing := false, lastScanTime := 0 } "A" "A" "B" 0 1600 3200).2.2
      { isProcessing := true, lastScanTime := 1600 } "A"
      { isProcessing := true, lastScanTime := 3200 } "B" (by decide) (by decide)⟩

/-! ### C8: focus and blur -/

/-- C8: blur clears the barcode buffer and cancels the pending confirmation
timer (and resets the confirming flag and progress); focus unconditionally
resets the processing flag and clears the buffer, so the session restarts
idle; in variant B, focus resets the processing flag and the last-scan
timestamp. -/
theorem c8_focus_blur_reset (s : ScanState) (sB : DebounceState) :
    (onBlurA s).barcodeBuffer = [] ∧
    (onBlurA s).confirmDeadline = none ∧
    (onBlurA s).isConfirming = false ∧
    (onBlurA s).confirmProgress = 0 ∧
    onFocusA s =
      { isProcessing := false, lastScanTime := s.lastScanTime, barcodeBuffer := [],
        isConfirming := false, confirmProgress := 0, confirmDeadline := none } ∧
    (onFocusB sB).isProcessing = false ∧
    (onFocusB sB).lastScanTime = 0 := by
  refine ⟨rfl, rfl, rfl, rfl, rfl, rfl, rfl⟩

/-! ### C9: the processing-flag gate -/

/-- C9: while a lookup is in flight, both scan-ingestion callbacks return
with the state untouched (in particular the barcode buffer) and dispatch
nothing; and conversely, a dispatch can only happen out of a state with the
flag down and raises the flag, so at most one lookup is in flight. -/
theorem c9_processing_flag_gate (s sd : ScanState) (sB sBd : DebounceState)
    (v : String) (t : Int) :
    (s.isProcessing = true → handleBarcodeScanned s v t = (s, none)) ∧
    (sB.isProcessing = true → handleBarcodeScannedB sB v t = (sB, none)) ∧
    (∀ s' w, handleBarcodeScanned sd v t = (s', some w) →
      sd.isProcessing = false ∧ s'.isProcessing = true) ∧
    (∀ sB' w, handleBarcodeScannedB sBd v t = (sB', some w) →
      sBd.isProcessing = false ∧ sB'.isProcessing = true) := by
  refine ⟨?_, ?_, ?_, ?_⟩
  · intro hp
    simp [handleBarcodeScanned, hp]
  · intro hp
    simp [handleBarcodeScannedB, hp]
  · intro s' w h
    by_cases hp : sd.isProcessing
    · simp [handleBarcodeScanned, hp] at h
    · refine ⟨by simpa using hp, ?_⟩
      by_cases hc : t - sd.lastScanTime < SCAN_COOLDOWN
      · simp [handleBarcodeScanned, hp, hc] at h
      · by_cases hr : confirmReady (sd.barcodeBuffer ++ [v]) v
        · simp only [handleBarcodeScanned, hp, Bool.false_eq_true, if_false, if_neg hc,
            if_pos hr, Prod.mk.injEq, Option.some.injEq] at h
          rw [← h.1]
          rfl
        · simp [handleBarcodeScanned, hp, hc, hr] at h
  · intro sB' w h
    obtain ⟨h1, _, h3, _⟩ := handleBarcodeScannedB_accept_inv sBd v t sB' w h
    rw [h3]
    exact ⟨h1, rfl⟩

/-- C9 witness: a processing state ignores a read in both variants, and a
confirming third read dispatches out of a non-processing state into a
processing one. -/
theorem c9_processing_flag_gate_witness :
    handleBarcodeScanned ⟨true, 0, ["A"], false, 0, none⟩ "A" 600 =
      (⟨true, 0, ["A"], false, 0, none⟩, none) ∧
    handleBarcodeScannedB ⟨true, 0⟩ "A" 600 = (⟨true, 0⟩, none) ∧
    ((⟨false, 0, ["A", "A"], true, 0, some 2500⟩ : ScanState).isProcessing = false ∧
      (⟨true, 600, [], false, 0, none⟩ : ScanState).isProcessing = true) ∧
    ((⟨false, 0⟩ : DebounceState).isProcessing = false ∧
      (⟨true, 1600⟩ : DebounceState).isProcessing = true) :=
  ⟨(c9_processing_flag_gate ⟨true, 0, ["A"], false, 0, none⟩ initialScanState
      ⟨true, 0⟩ ⟨false, 0⟩ "A" 600).1 rfl,
   (c9_processing_flag_gate initialScanState initialScanState
      ⟨true, 0⟩ ⟨false, 0⟩ "A" 600).2.1 rfl,
   (c9_processing_flag_gate initialScanState ⟨false, 0, ["A", "A"], true, 0, some 2500⟩
      ⟨true, 0⟩ ⟨false, 0⟩ "A" 600).2.2.1 ⟨true, 600, [], false, 0, none⟩ "A" rfl,
   (c9_processing_flag_gate initialScanState initialScanState
      ⟨true, 0⟩ ⟨false, 0⟩ "A" 1600).2.2.2 ⟨true, 1600⟩ "A" rfl⟩

/-! ### C6: what a timed-out lookup surfaces -/

/-- C6 counterexample: a timed-out lookup does produce the distinct
timeout-specific error string inside the ApiResponse, but the camera screen
never reads it — the surfaced alert for the timeout is byte-for-byte the
same generic not-found alert as for a body without a product, so no
timeout-specific message is surfaced. -/
theorem c6_counterexample_timeout_surfaces_not_found_alert :
    (findProductByBarcode .timeout).error = some timeoutErrorMessage ∧
    (processBarcodeRequest initialScanState "123" (.ok (findProductByBarcode .timeout))).2 =
      (processBarcodeRequest initialScanState "123"
        (.ok (findProductByBarcode
          (.jsonBody { variations := none, success := false, product := none })))).2 ∧
    (processBarcodeRequest initialScanState "123" (.ok (findProductByBarcode .timeout))).2 =
      .alert notFoundTitle (notFoundMessage "123") ∧
    notFoundMessage "123" ≠ timeoutErrorMessage := by
  refine ⟨rfl, rfl, rfl, by decide⟩

/-- C6 amended: a lookup that exceeds the 30-second bound yields
success := false with the timeout-specific error string (itself misstating
the bound as 10 seconds), distinct from the no-product, parse and generic
failure strings; the camera screen however surfaces the generic not-found
alert for it, and dismissing that alert resets the processing flag so
scanning resumes. -/
theorem c6_amended_timeout_error_distinct_but_surfaced_generic
    (s : ScanState) (b : String) :
    findProductByBarcode .timeout =
      { success := false, data := none, variations := none,
        error := some timeoutErrorMessage } ∧
    timeoutErrorMessage ≠ noProductMessage ∧
    timeoutErrorMessage ≠ parseErrorMessage ∧
    timeoutErrorMessage ≠ genericErrorMessage ∧
    (processBarcodeRequest s b (.ok (findProductByBarcode .timeout))).2 =
      .alert notFoundTitle (notFoundMessage b) ∧
    (dismissAlert
        (processBarcodeRequest s b (.ok (findProductByBarcode .timeout))).1).isProcessing =
      false := by
  refine ⟨rfl, by decide, by decide, by decide, rfl, rfl⟩

/-! ### C10: the response envelope of findProductByBarcode -/

/-- C10: a parsed body with a non-empty variations array yields
success := true, data := the first formatted variation and
variations := the whole formatted list; a body with neither a non-empty
variations array nor a truthy success together with a product yields
success := false with the no-product error message (the throw is caught,
not propagated). -/
theorem c10_variations_envelope (body : ApiBody) (l : List RawProduct)
    (hv : body.variations = some l) (hne : l ≠ []) :
    (findProductByBarcode (.jsonBody body)).success = true ∧
    (findProductByBarcode (.jsonBody body)).data = (l.map formatProduct).head? ∧
    (findProductByBarcode (.jsonBody body)).variations = some (l.map formatProduct) ∧
    (∀ body₂ : ApiBody,
      (body₂.variations = none ∨ body₂.variations = some []) →
      ¬(body₂.success = true ∧ body₂.product.isSome = true) →
      (findProductByBarcode (.jsonBody body₂)).success = false ∧
      (findProductByBarcode (.jsonBody body₂)).error = some noProductMessage) := by
  obtain ⟨p, rest, rfl⟩ := List.exists_cons_of_ne_nil hne
  have hpa : productsArray body = some (p :: rest) := by
    simp [productsArray, hv]
  refine ⟨by simp [findProductByBarcode, hpa], by simp [findProductByBarcode, hpa],
    by simp [findProductByBarcode, hpa], ?_⟩
  intro body₂ hv₂ hnp
  have hpa₂ : productsArray body₂ = none := by
    cases hs : body₂.success with
    | false =>
        rcases hv₂ with h | h <;> simp [productsArray, h, hs]
    | true =>
        cases hp : body₂.product with
        | none => rcases hv₂ with h | h <;> simp [productsArray, h, hs, hp]
        | some q => exact absurd ⟨hs, by simp [hp]⟩ hnp
  exact ⟨by simp [findProductByBarcode, hpa₂], by simp [findProductByBarcode, hpa₂]⟩

/-- A concrete raw product used to instantiate the C10 claim. -/
def sampleRawProduct : RawProduct :=
  { id := 1, category_id := 2, name := "Kablo", barcode := "8690000000001",
    coverUrlThumb := some "/img/1.jpg", totalStock := some 5,
    storeStocks := none, shelf := none, weight := none, features := none,
    compatible_models := none, compatible_model_values := none, sales_total := none,
    price1 := 10, price1_cur := "TL", price2 := 11, price2_cur := "TL",
    price5 := 12, price5_cur := "TL", price6 := 13, price6_cur := "TL",
    price8 := 14, price8_cur := "TL" }

/-- A concrete body whose variations array holds one raw product. -/
def sampleBody : ApiBody :=
  { variations := some [sampleRawProduct], success := false, product := none }

/-- C10 witness: the singleton-variations body yields the success envelope
with the formatted product, and the empty body yields the no-product
error envelope. -/
theorem c10_variations_envelope_witness :
    (findProductByBarcode (.jsonBody sampleBody)).success = true ∧
    (findProductByBarcode (.jsonBody sampleBody)).data =
      ([sampleRawProduct].map formatProduct).head? ∧
    (findProductByBarcode (.jsonBody sampleBody)).variations =
      some ([sampleRawProduct].map formatProduct) ∧
    ((findProductByBarcode
        (.jsonBody { variations := none, success := false, product := none })).success =
      false ∧
     (findProductByBarcode
        (.jsonBody { variations := none, success := false, product := none })).error =
      some noProductMessage) := by
  have H := c10_variations_envelope sampleBody [sampleRawProduct] rfl (by simp)
  exact ⟨H.1, H.2.1, H.2.2.1,
    H.2.2.2 { variations := none, success := false, product := none } (Or.inl rfl) (by simp)⟩

end Nettech
